import Mathlib

/-
Verification of the interactive search core of the claude-conversation-extractor
repository, against a shallow embedding of the Python sources.

Embedded modules:
  * src/interactive_search/enhanced_search.py  (EnhancedSearch: debounced worker,
    cache, key handling)
  * src/interactive_search/conversation_viewer.py  (ConversationViewer: scrolling,
    in-conversation search navigation, JSONL loading)

Machine integers are embedded as Int/Nat; wall-clock time is embedded as Nat
milliseconds (the source uses seconds as floats with a 0.3 s debounce; we use
300 ms).  Python exceptions in the searcher are embedded with Except.
-/

namespace CCE

/-- Modelled from the spec: the SearchState record is defined in
realtime_search.py, which is not part of the provided sources; its fields and
their initial values follow spec section 3 and the uses in enhanced_search.py.
`results` is kept abstract in the element type `R`. -/
structure SearchState (R : Type) where
  query : String
  cursor_pos : Nat
  results : List R
  selected_index : Int
  last_update : Nat
  is_searching : Bool
deriving Repr, DecidableEq

/-- The mutable fields of EnhancedSearch that the search logic touches:
the shared SearchState, the results cache (a Python dict, embedded as an
association list with unique keys), and the show_preview toggle. -/
structure ESearch (R : Type) where
  state : SearchState R
  results_cache : List (String × List R)
  show_preview : Bool
deriving Repr, DecidableEq

/-- self.debounce_delay = 0.3 (seconds), embedded in milliseconds. -/
def debounce_delay : Nat := 300

/-- Python `s.startswith(pre)`: `pre` is an initial run of the characters of
`s`.  (Stated over the character lists so that it computes by structural
recursion.) -/
def str_startswith (s pre : String) : Bool := pre.data.isPrefixOf s.data

/-- Python one-sided slicing `s[:n]` (strings index by characters). -/
def str_take (s : String) (n : Nat) : String := ⟨s.data.take n⟩

/-- Python one-sided slicing `s[n:]`. -/
def str_drop (s : String) (n : Nat) : String := ⟨s.data.drop n⟩

/-- Python dict membership/read: `self.results_cache[query]` guarded by
`query in self.results_cache`. -/
def cache_get {R : Type} (q : String) : List (String × List R) → Option (List R)
  | [] => none
  | (k, v) :: rest => if k = q then some v else cache_get q rest

/-- Python dict write `self.results_cache[query] = results`: replace the
binding if the key is present, otherwise append it. -/
def cache_put {R : Type} (q : String) (v : List R) :
    List (String × List R) → List (String × List R)
  | [] => [(q, v)]
  | (k, w) :: rest => if k = q then (k, v) :: rest else (k, w) :: cache_put q v rest

/-- EnhancedSearch.trigger_search (enhanced_search.py lines 192-204), called at
time `now`: refresh last_update, re-arm is_searching, and delete every cache
key `k` for which `not k.startswith(self.search_state.query)` — i.e. keep
exactly the keys that start with the (already mutated) query. -/
def trigger_search {R : Type} (now : Nat) (es : ESearch R) : ESearch R :=
  { es with
    state := { es.state with last_update := now, is_searching := true },
    results_cache :=
      es.results_cache.filter (fun kv => str_startswith kv.1 es.state.query) }

/-- EnhancedSearch._process_search_request (enhanced_search.py lines 140-181) at
time `now`, with the external searcher embedded as
`f : String → Except Unit (List R)` (`Except.error` = the searcher raised).
Returns the new state and the boolean the Python method returns.  The lock
regions of the source are sequential blocks here; the interleaving-sensitive
claims are treated by the dedicated models further below. -/
def process_search_request {R : Type} (f : String → Except Unit (List R))
    (now : Nat) (es : ESearch R) : ESearch R × Bool :=
  if es.state.is_searching = false then (es, false)
  else if now - es.state.last_update < debounce_delay then (es, false)
  else
    -- snapshot the query and clear is_searching (first lock region)
    let q := es.state.query
    let es1 : ESearch R := { es with state := { es.state with is_searching := false } }
    if q = "" then
      ({ es1 with state := { es1.state with results := [] } }, true)
    else
      match cache_get q es1.results_cache with
      | some r => ({ es1 with state := { es1.state with results := r } }, true)
      | none =>
        match f q with
        | Except.ok r =>
            ({ es1 with
                results_cache := cache_put q r es1.results_cache,
                state := { es1.state with results := r, selected_index := 0 } }, true)
        | Except.error _ =>
            ({ es1 with state := { es1.state with results := [] } }, true)

/-- cache_get over a key-predicate filter: a lookup succeeds on the filtered
list exactly when the key satisfies the predicate and the lookup succeeded
before. -/
theorem cache_get_filter {R : Type} (p : String → Bool) (k : String)
    (l : List (String × List R)) :
    cache_get k (l.filter (fun kv => p kv.1)) =
      if p k then cache_get k l else none := by
  induction l with
  | nil => simp [cache_get]
  | cons hd tl ih =>
    obtain ⟨a, v⟩ := hd
    by_cases hak : a = k
    · subst hak
      by_cases hp : p a
      · simp [List.filter, hp, cache_get]
      · simp [List.filter, hp, cache_get, ih]
    · by_cases hp : p a <;>
        simpa [List.filter, hp, cache_get, hak] using ih

/-- A concrete EnhancedSearch state: the user has just backspaced from query
"error" to "err"; the cache still holds the entry computed for "error". -/
def c1_back : ESearch Nat :=
  ⟨⟨"err", 3, [], 0, 0, false⟩, [("error", [1])], true⟩

/-- A concrete EnhancedSearch state: the user has just extended query "err" to
"erro"; the cache still holds the entry computed for "err". -/
def c1_fwd : ESearch Nat :=
  ⟨⟨"erro", 4, [], 0, 0, false⟩, [("err", [2])], true⟩

/-- C1 counterexample: trigger_search does the opposite of the claim on both of
the claim's own examples.  After mutating the query from "error" to "err" the
cache entry for "error" is RETAINED (the claim says evicted), and after the
prefix-consistent edit "err" → "erro" the cache entry for "err" is EVICTED
(the claim says retained); "error" is kept although it is not a prefix of the
new query "err". -/
theorem c1_prune_direction_cex :
    cache_get "error" (trigger_search 5 c1_back).results_cache = some [1] ∧
    cache_get "err" (trigger_search 5 c1_fwd).results_cache = none ∧
    (str_startswith "err" "error") = false := by decide

/-- C1 (amended): after every query mutation, trigger_search retains exactly
those cache entries whose key starts with the new query (the new query is a
prefix of the key), and drops every other entry: a key `k` can still be looked
up after the mutation iff `k.startsWith query`, in which case its value is
unchanged. -/
theorem c1_prune_keeps_keys_starting_with_query {R : Type} (now : Nat)
    (k : String) (es : ESearch R) :
    cache_get k (trigger_search now es).results_cache =
      if str_startswith k es.state.query then cache_get k es.results_cache
      else none := by
  unfold trigger_search
  exact cache_get_filter (fun s => str_startswith s es.state.query) k es.results_cache

/-- The named key events dispatched by EnhancedSearch.handle_search_input
(enhanced_search.py lines 206-278).  `chr c` is a single-character key. -/
inductive Key where
  | esc : Key
  | enter : Key
  | tab : Key
  | up : Key
  | down : Key
  | left : Key
  | right : Key
  | backspace : Key
  | chr : Char → Key
deriving Repr, DecidableEq

/-- The action strings handle_search_input can return ("exit", "redraw", or the
result of open_conversation for ENTER). -/
inductive Action where
  | exit : Action
  | redraw : Action
  | openSelected : Action
deriving Repr, DecidableEq

/-- EnhancedSearch.handle_search_input (enhanced_search.py lines 206-278) at
time `now` (the time is passed to trigger_search, which records it).  ENTER
calls open_conversation, which only touches navigation state, so it is
embedded as the openSelected action with the search state unchanged. -/
def handle_search_input {R : Type} (key : Key) (now : Nat) (es : ESearch R) :
    ESearch R × Option Action :=
  match key with
  | .esc => (es, some .exit)
  | .enter =>
      if (!es.state.results.isEmpty) ∧ 0 ≤ es.state.selected_index ∧
          es.state.selected_index < (es.state.results.length : Int) then
        (es, some .openSelected)
      else (es, none)
  | .tab => ({ es with show_preview := !es.show_preview }, some .redraw)
  | .up =>
      if !es.state.results.isEmpty then
        ({ es with state :=
            { es.state with selected_index := max 0 (es.state.selected_index - 1) } },
         some .redraw)
      else (es, none)
  | .down =>
      if !es.state.results.isEmpty then
        let max_index : Int := min 9 ((es.state.results.length : Int) - 1)
        ({ es with state :=
            { es.state with
                selected_index := min max_index (es.state.selected_index + 1) } },
         some .redraw)
      else (es, none)
  | .left =>
      ({ es with state :=
          { es.state with cursor_pos := es.state.cursor_pos - 1 } }, some .redraw)
  | .right =>
      ({ es with state :=
          { es.state with
              cursor_pos := min es.state.query.length (es.state.cursor_pos + 1) } },
       some .redraw)
  | .backspace =>
      if 0 < es.state.cursor_pos then
        let q := es.state.query
        let p := es.state.cursor_pos
        (trigger_search now
          { es with state :=
              { es.state with
                  query := str_take q (p - 1) ++ str_drop q p,
                  cursor_pos := p - 1 } },
         some .redraw)
      else (es, none)
  | .chr c =>
      if 32 ≤ c.toNat ∧ c.toNat < 127 then
        let q := es.state.query
        let p := es.state.cursor_pos
        (trigger_search now
          { es with state :=
              { es.state with
                  query := str_take q p ++ c.toString ++ str_drop q p,
                  cursor_pos := p + 1 } },
         some .redraw)
      else (es, none)

/-- One event of an interactive session: a key handled by the UI thread, or one
poll of the worker thread (search_worker, enhanced_search.py lines 183-190)
at time `t` with the searcher `f`. -/
inductive SEvent where
  | key : Key → Nat → SEvent
  | worker : Nat → SEvent
deriving Repr, DecidableEq

/-- Modelled from the spec: the SearchState created at session start
(realtime_search.py is not in the provided sources); spec section 3 — empty
query, no results, selected_index 0, not searching. -/
def init_search {R : Type} : ESearch R :=
  ⟨⟨"", 0, [], 0, 0, false⟩, [], true⟩

/-- One step of the interleaved session: UI key events and worker polls applied
to the shared state in program order. -/
def sstep {R : Type} (f : String → Except Unit (List R)) (es : ESearch R) :
    SEvent → ESearch R
  | .key k t => (handle_search_input k t es).1
  | .worker t => (process_search_request f t es).1

/-- Run a session: fold the event list over the initial state. -/
def srun {R : Type} (f : String → Except Unit (List R)) (evs : List SEvent) :
    ESearch R :=
  evs.foldl (sstep f) init_search

/-- C8: when the worker picks up a pending search (is_searching set and the
debounce interval elapsed) and the snapshotted query is the empty string, the
cycle immediately writes an empty result list and only clears is_searching;
the outcome is one fixed state equation that does not involve the searcher
(`process_search_request f … = process_search_request g …` for every two
searchers f, g: searcher.search is not called) and returns the cache exactly
as it was, for every cache contents (the cache is not consulted). -/
theorem c8_empty_query_skips_search {R : Type}
    (f g : String → Except Unit (List R)) (now : Nat) (es : ESearch R)
    (hs : es.state.is_searching = true)
    (hd : debounce_delay ≤ now - es.state.last_update)
    (hq : es.state.query = "") :
    process_search_request f now es =
      ({ es with state := { es.state with is_searching := false, results := [] } },
        true)
    ∧ process_search_request f now es = process_search_request g now es := by
  have h2 : ¬ (now - es.state.last_update < debounce_delay) := by omega
  refine ⟨?_, ?_⟩ <;> simp [process_search_request, hs, h2, hq]

/-- A pending empty-query state with a non-trivial cache and stale results. -/
def c8_es : ESearch Nat := ⟨⟨"", 0, [1], 3, 0, true⟩, [("x", [9])], true⟩

/-- C8 witness: the empty-query cycle on a concrete state. -/
theorem c8_empty_query_skips_search_witness :
    process_search_request (fun _ => Except.ok [5]) 300 c8_es =
      ({ c8_es with
          state := { c8_es.state with is_searching := false, results := [] } },
        true) :=
  (c8_empty_query_skips_search (fun _ => Except.ok [5])
    (fun _ => Except.error ()) 300 c8_es rfl (by decide) rfl).1

/-- C4: if the searcher raises during a worker cycle (pending search, debounce
elapsed, non-empty query, cache miss, searcher returns an error), the cycle
still returns normally with `true` (the worker loop continues polling),
results is set to the empty list, is_searching is cleared, and every other
component — query, cursor, selected_index, the cache — is left as it was. -/
theorem c4_worker_error_yields_empty {R : Type}
    (f : String → Except Unit (List R)) (now : Nat) (es : ESearch R)
    (hs : es.state.is_searching = true)
    (hd : debounce_delay ≤ now - es.state.last_update)
    (hq : es.state.query ≠ "")
    (hc : cache_get es.state.query es.results_cache = none)
    (hf : f es.state.query = Except.error ()) :
    process_search_request f now es =
      ({ es with state := { es.state with is_searching := false, results := [] } },
        true) := by
  have h2 : ¬ (now - es.state.last_update < debounce_delay) := by omega
  simp [process_search_request, hs, h2, hq, hc, hf]

/-- A pending state for the query "boom" with an empty cache. -/
def c4_es : ESearch Nat := ⟨⟨"boom", 4, [8], 2, 100, true⟩, [], true⟩

/-- C4 witness: a searcher that raises on "boom" yields empty results on a
concrete pending state. -/
theorem c4_worker_error_yields_empty_witness :
    process_search_request (fun _ => (Except.error () : Except Unit (List Nat)))
        400 c4_es =
      ({ c4_es with
          state := { c4_es.state with is_searching := false, results := [] } },
        true) :=
  c4_worker_error_yields_empty (fun _ => Except.error ()) 400 c4_es rfl
    (by decide) (by decide) rfl rfl

/-- A pending state for query "a" whose cache already holds results for "a",
with selected_index 5. -/
def c5_es : ESearch Nat := ⟨⟨"a", 1, [], 5, 0, true⟩, [("a", [42])], true⟩

/-- C5 counterexample: a worker cycle for the non-empty query "a" satisfied
from the cache completes (returns true) and writes results, but does NOT reset
selected_index to 0 — it stays 5. -/
theorem c5_cache_hit_keeps_selected_cex :
    (process_search_request (fun _ => Except.ok []) 300 c5_es).2 = true ∧
    (process_search_request (fun _ => Except.ok []) 300 c5_es).1.state.results
      = [42] ∧
    ¬ ((process_search_request (fun _ => Except.ok []) 300 c5_es).1.state.selected_index
        = 0) := by decide

/-- C5 (amended): on completion of a worker search cycle for a non-empty query
that misses the cache and whose search succeeds, the worker writes the fresh
results and resets selected_index to 0; a cycle satisfied from the cache
writes the cached results but leaves selected_index unchanged. -/
theorem c5_cycle_write_rules {R : Type}
    (f : String → Except Unit (List R)) (now : Nat) (es : ESearch R) (r : List R)
    (hs : es.state.is_searching = true)
    (hd : debounce_delay ≤ now - es.state.last_update)
    (hq : es.state.query ≠ "") :
    (cache_get es.state.query es.results_cache = none →
      f es.state.query = Except.ok r →
      (process_search_request f now es).1.state.results = r ∧
      (process_search_request f now es).1.state.selected_index = 0) ∧
    (cache_get es.state.query es.results_cache = some r →
      (process_search_request f now es).1.state.results = r ∧
      (process_search_request f now es).1.state.selected_index
        = es.state.selected_index) := by
  have h2 : ¬ (now - es.state.last_update < debounce_delay) := by omega
  constructor
  · intro hc hf
    simp [process_search_request, hs, h2, hq, hc, hf]
  · intro hc
    simp [process_search_request, hs, h2, hq, hc]

/-- A pending cache-miss state for query "ab". -/
def c5_fresh_es : ESearch Nat := ⟨⟨"ab", 2, [9, 9], 7, 0, true⟩, [], true⟩

/-- C5 witness: a fresh successful cycle on a concrete state writes the
searcher's results and resets selected_index to 0. -/
theorem c5_cycle_write_rules_witness :
    (process_search_request (fun _ => Except.ok [1, 2]) 300 c5_fresh_es).1.state.results
      = [1, 2] ∧
    (process_search_request (fun _ => Except.ok [1, 2]) 300 c5_fresh_es).1.state.selected_index
      = 0 :=
  (c5_cycle_write_rules (fun _ => Except.ok [1, 2]) 300 c5_fresh_es [1, 2] rfl
    (by decide) (by decide)).1 rfl rfl

/-- A worker cycle either resets selected_index to 0 (fresh successful search)
or leaves it unchanged (gate not passed, empty query, cache hit, searcher
error). -/
theorem process_sel_cases {R : Type} (f : String → Except Unit (List R))
    (now : Nat) (es : ESearch R) :
    (process_search_request f now es).1.state.selected_index = 0 ∨
    (process_search_request f now es).1.state.selected_index
      = es.state.selected_index := by
  by_cases h1 : es.state.is_searching = false
  · simp [process_search_request, h1]
  by_cases h2 : now - es.state.last_update < debounce_delay
  · simp [process_search_request, h1, h2]
  by_cases h3 : es.state.query = ""
  · simp [process_search_request, h1, h2, h3]
  cases hc : cache_get es.state.query es.results_cache with
  | some r => simp [process_search_request, h1, h2, h3, hc]
  | none =>
    cases hf : f es.state.query with
    | ok r => simp [process_search_request, h1, h2, h3, hc, hf]
    | error e => simp [process_search_request, h1, h2, h3, hc, hf]

/-- Every key handled by handle_search_input keeps selected_index within
[0, 9] whenever it already was: UP clamps at 0 from below, DOWN clamps at
min 9 (len - 1) ≤ 9 from above, and every other key leaves it unchanged. -/
theorem handle_sel_bounds {R : Type} (key : Key) (now : Nat) (es : ESearch R)
    (h0 : 0 ≤ es.state.selected_index) (h9 : es.state.selected_index ≤ 9) :
    0 ≤ (handle_search_input key now es).1.state.selected_index ∧
    (handle_search_input key now es).1.state.selected_index ≤ 9 := by
  cases key with
  | esc => exact ⟨h0, h9⟩
  | enter =>
    simp only [handle_search_input]
    split <;> exact ⟨h0, h9⟩
  | tab => exact ⟨h0, h9⟩
  | up =>
    simp only [handle_search_input]
    split
    · exact ⟨le_max_left 0 _, max_le (by norm_num) (by omega)⟩
    · exact ⟨h0, h9⟩
  | down =>
    simp only [handle_search_input]
    split
    · rename_i hne
      have hlen : 0 < es.state.results.length := by
        cases hres : es.state.results with
        | nil => rw [hres] at hne; simp at hne
        | cons a t => simp [hres]
      have hlen' : (1 : Int) ≤ (es.state.results.length : Int) := by
        exact_mod_cast hlen
      refine ⟨le_min (le_min (by norm_num) (by omega)) (by omega), ?_⟩
      exact le_trans (min_le_left _ _) (min_le_left 9 _)
    · exact ⟨h0, h9⟩
  | left => exact ⟨h0, h9⟩
  | right => exact ⟨h0, h9⟩
  | backspace =>
    simp only [handle_search_input, trigger_search]
    split
    · exact ⟨h0, h9⟩
    · exact ⟨h0, h9⟩
  | chr c =>
    simp only [handle_search_input, trigger_search]
    split
    · exact ⟨h0, h9⟩
    · exact ⟨h0, h9⟩

/-- Folding any event list preserves the [0, 9] bound on selected_index. -/
theorem foldl_sel_bounds {R : Type} (f : String → Except Unit (List R))
    (evs : List SEvent) :
    ∀ es : ESearch R, 0 ≤ es.state.selected_index → es.state.selected_index ≤ 9 →
      0 ≤ (evs.foldl (sstep f) es).state.selected_index ∧
      (evs.foldl (sstep f) es).state.selected_index ≤ 9 := by
  induction evs with
  | nil => intro es h0 h9; exact ⟨h0, h9⟩
  | cons e t ih =>
    intro es h0 h9
    rw [List.foldl_cons]
    cases e with
    | key k tm =>
      obtain ⟨g0, g9⟩ := handle_sel_bounds k tm es h0 h9
      exact ih _ g0 g9
    | worker tm =>
      rcases process_sel_cases f tm es with hz | hsame
      · exact ih _ (by rw [sstep, hz]) (by rw [sstep, hz]; norm_num)
      · exact ih _ (by rw [sstep, hsame]; exact h0) (by rw [sstep, hsame]; exact h9)

/-- C6 (amended): in every session state reachable by any interleaving of key
events and worker polls, selected_index lies in [0, 9] (the UI's 10-result
cap); it need not lie below results.length - 1 and need not be 0 on empty
results, because cache-hit, empty-query and failed worker cycles leave
selected_index untouched. -/
theorem c6_selected_in_zero_nine {R : Type} (f : String → Except Unit (List R))
    (evs : List SEvent) :
    0 ≤ (srun f evs).state.selected_index ∧
    (srun f evs).state.selected_index ≤ 9 := by
  exact foldl_sel_bounds f evs init_search le_rfl (by norm_num [init_search])

/-- The searcher of the C6 counterexample run: "a" has ten results, its
extension "ab" has a single result. -/
def c6_searcher : String → Except Unit (List Nat) :=
  fun q =>
    if q = "ab" then Except.ok [7]
    else if q = "a" then Except.ok [1, 2, 3, 4, 5, 6, 7, 8, 9, 10]
    else Except.ok []

/-- The C6 counterexample session: type "ab", let the search complete (caching
the single result for "ab"), backspace to "a", let that search complete (ten
results), press DOWN once, retype "b", and let the worker satisfy "ab" from
the cache.  Each worker poll lies a full debounce interval after the last
mutation, so it corresponds to a real schedule of the 50 ms polling loop. -/
def c6_trace : List SEvent :=
  [ SEvent.key (Key.chr 'a') 0,
    SEvent.key (Key.chr 'b') 10,
    SEvent.worker 400,
    SEvent.key Key.backspace 500,
    SEvent.worker 900,
    SEvent.key Key.down 950,
    SEvent.key (Key.chr 'b') 1000,
    SEvent.worker 1400 ]

/-- C6 counterexample: a reachable session state (reached by c6_trace) whose
results have length 1 while selected_index is 1, violating
selected_index ≤ min 9 (results.length - 1): the final worker cycle was
satisfied from the cache and did not re-establish the bound. -/
theorem c6_reachable_bound_cex :
    (srun c6_searcher c6_trace).state.results = [7] ∧
    (srun c6_searcher c6_trace).state.selected_index = 1 ∧
    ¬ ((srun c6_searcher c6_trace).state.selected_index ≤
        min 9 (((srun c6_searcher c6_trace).state.results.length : Int) - 1)) := by
  decide

/-
Interleaving model for the worker.  _process_search_request releases the
shared-state lock between its first lock region (enhanced_search.py lines
142-151: check is_searching, snapshot the query, clear is_searching) and the
write of results (lines 153-181), so a UI-thread query mutation can land in
between.  A worker cycle is therefore split into a `start` step (first lock
region) and a `finish` step (compute, then write under the lock); `mut q` is a
UI-thread mutation of the query plus trigger_search re-arming is_searching.
The searcher composite (cache or strategies) is abstracted as a function
`f : String → List R` of the snapshotted query; `pending` holds the worker's
snapshot while a cycle is in flight.
-/

/-- The shared state as seen by the interleaving model of C2. -/
structure WState (R : Type) where
  query : String
  results : List R
  is_searching : Bool
  pending : Option String
deriving Repr, DecidableEq

/-- Interleaving events: a query mutation on the UI thread, the worker's
snapshot step, and the worker's write step. -/
inductive WEv where
  | mut : String → WEv
  | start : WEv
  | finish : WEv
deriving Repr, DecidableEq

/-- One interleaved step.  `start` snapshots the query the state holds at that
moment (not at the moment the search was requested) and clears is_searching;
`finish` writes the search result for the snapshot into results. -/
def wstep {R : Type} (f : String → List R) (s : WState R) : WEv → WState R
  | .mut q => { s with query := q, is_searching := true }
  | .start =>
      if s.is_searching then { s with pending := some s.query, is_searching := false }
      else s
  | .finish =>
      match s.pending with
      | some q => { s with results := f q, pending := none }
      | none => s

/-- The shared state at session start. -/
def winit {R : Type} : WState R := ⟨"", [], false, none⟩

/-- Run an interleaving from the initial state. -/
def wrun {R : Type} (f : String → List R) (evs : List WEv) : WState R :=
  evs.foldl (wstep f) winit

/-- The searcher of the C2 counterexample: the result list for a query is the
one-element list holding the query itself, so distinct queries have distinct
results. -/
def c2f : String → List String := fun q => [q]

/-- The C2 counterexample interleaving: the user types "a", the worker
snapshots "a" and starts searching, the user extends the query to "ab" while
the search is running. -/
def c2_mid : WState String := wrun c2f [WEv.mut "a", WEv.start, WEv.mut "ab"]

/-- C2 counterexample: in the interleaving where a mutation lands between the
worker's snapshot and its write, the worker's write puts the results for the
old query "a" into a state whose query is already "ab": the list written is
NOT the search result for the value query holds at the moment of the write. -/
theorem c2_stale_write_cex :
    c2_mid.pending = some "a" ∧
    c2_mid.query = "ab" ∧
    (wstep c2f c2_mid WEv.finish).results = ["a"] ∧
    c2f (wstep c2f c2_mid WEv.finish).query = ["ab"] ∧
    (["a"] : List String) ≠ ["ab"] := by decide

/-- C2 (amended): the worker snapshots the query at the moment it starts
running — a start step taken from any state with is_searching set records
exactly the query that state holds — and the list a finish step writes is the
search result for that snapshot, while the finish step changes neither the
query nor is_searching: a mutation that re-armed is_searching mid-search is
still pending after the stale write, so the next cycle recomputes with the
newer query. -/
theorem c2_write_matches_snapshot {R : Type} (f : String → List R)
    (s : WState R) :
    (s.is_searching = true → (wstep f s WEv.start).pending = some s.query) ∧
    (∀ q : String, s.pending = some q →
      (wstep f s WEv.finish).results = f q ∧
      (wstep f s WEv.finish).query = s.query ∧
      (wstep f s WEv.finish).is_searching = s.is_searching) := by
  constructor
  · intro hs
    simp [wstep, hs]
  · intro q hq
    simp [wstep, hq]

/-- C2 witness: the amended statement at the concrete mid-search state of the
counterexample interleaving — the snapshot is recorded verbatim, and the
write is the search result for the snapshot "a" with is_searching left armed. -/
theorem c2_write_matches_snapshot_witness :
    (wstep c2f c2_mid WEv.start).pending = some "ab" ∧
    (wstep c2f c2_mid WEv.finish).results = c2f "a" ∧
    (wstep c2f c2_mid WEv.finish).is_searching = true := by
  have h := c2_write_matches_snapshot c2f c2_mid
  refine ⟨?_, ?_, ?_⟩
  · have := h.1 (by decide)
    simpa using this
  · exact (h.2 "a" (by decide)).1
  · have := (h.2 "a" (by decide)).2.2
    rw [this]
    decide

/-
Timed model for the debounce gate (enhanced_search.py lines 142-151 and
192-196).  A `mut t q` event is a query mutation at time `t` followed by
trigger_search (refresh last_update, re-arm is_searching); a `tick t` event is
one worker poll at time `t`, which runs a search cycle exactly when
is_searching is set and at least debounce_delay has elapsed since last_update.
`executed` logs, for each cycle that ran, the time and the query it
snapshotted.
-/

/-- The state watched by the debounce gate, plus the log of executed cycles. -/
structure DState where
  query : String
  last_update : Nat
  is_searching : Bool
  executed : List (Nat × String)
deriving Repr, DecidableEq

/-- Timed events: a query mutation, or one worker poll. -/
inductive DEv where
  | mut : Nat → String → DEv
  | tick : Nat → DEv
deriving Repr, DecidableEq

/-- One timed step. -/
def dstep (s : DState) : DEv → DState
  | .mut t q => { s with query := q, last_update := t, is_searching := true }
  | .tick t =>
      if s.is_searching = true ∧ debounce_delay ≤ t - s.last_update then
        { s with is_searching := false, executed := s.executed ++ [(t, s.query)] }
      else s

/-- The idle state at the start of the window, with an empty log. -/
def dinit : DState := ⟨"", 0, false, []⟩

/-- Run a timed event sequence. -/
def drun (s : DState) (evs : List DEv) : DState := evs.foldl dstep s

/-- Worker polls never do anything while no search is pending. -/
theorem dticks_idle (ts : List Nat) (s : DState) (h : s.is_searching = false) :
    drun s (ts.map DEv.tick) = s := by
  induction ts with
  | nil => rfl
  | cons t ts ih =>
    have hcond : ¬ (s.is_searching = true ∧ debounce_delay ≤ t - s.last_update) := by
      rintro ⟨hs, -⟩; rw [h] at hs; exact Bool.false_ne_true hs
    simpa [drun, dstep, hcond] using ih

/-- Worker polls strictly inside the debounce window do nothing. -/
theorem dticks_no_fire (ts : List Nat) (s : DState)
    (hb : ∀ t ∈ ts, t < s.last_update + debounce_delay) :
    drun s (ts.map DEv.tick) = s := by
  induction ts with
  | nil => rfl
  | cons t ts ih =>
    have ht := hb t (by simp)
    have hD : 0 < debounce_delay := by decide
    have hcond : ¬ (s.is_searching = true ∧ debounce_delay ≤ t - s.last_update) := by
      rintro ⟨-, hle⟩; omega
    have ih' := ih (fun u hu => hb u (by simp [hu]))
    simpa [drun, dstep, hcond] using ih'

/-- A worker poll past the end of the debounce window runs one cycle with the
current query and clears is_searching. -/
theorem dtick_fires (t : Nat) (s : DState) (hs : s.is_searching = true)
    (hle : s.last_update + debounce_delay ≤ t) :
    dstep s (DEv.tick t) =
      { s with is_searching := false, executed := s.executed ++ [(t, s.query)] } := by
  have hcond : s.is_searching = true ∧ debounce_delay ≤ t - s.last_update :=
    ⟨hs, by omega⟩
  simp [dstep, hcond]

/-- C3: starting idle, if the query is mutated at t1 (to q1) and again at t2
(to q2) with t2 - t1 below the debounce interval, then over any worker polling
schedule — polls before the first mutation, polls between the two mutations
(necessarily at times ≤ t2), polls after the second mutation but before its
window elapses, the first poll t' at or past t2 + debounce, and any later
polls — exactly one search cycle executes, and it snapshots q2, the query
present when the window elapsed, never the intermediate value q1. -/
theorem c3_debounce_single_search
    (t1 t2 : Nat) (q1 q2 : String)
    (pre mid postA postB : List Nat) (t' : Nat)
    (hwin : t2 < t1 + debounce_delay)
    (hmid : ∀ t ∈ mid, t ≤ t2)
    (hpostA : ∀ t ∈ postA, t < t2 + debounce_delay)
    (ht' : t2 + debounce_delay ≤ t') :
    (drun dinit
      (pre.map DEv.tick ++ DEv.mut t1 q1 :: mid.map DEv.tick ++
        DEv.mut t2 q2 :: postA.map DEv.tick ++ DEv.tick t' ::
        postB.map DEv.tick)).executed = [(t', q2)] := by
  have h0 : drun dinit (pre.map DEv.tick) = dinit := dticks_idle pre dinit rfl
  have h1 : drun ⟨q1, t1, true, []⟩ (mid.map DEv.tick) = ⟨q1, t1, true, []⟩ := by
    refine dticks_no_fire mid _ ?_
    intro t ht
    have := hmid t ht
    simp only []
    omega
  have h2 : drun ⟨q2, t2, true, []⟩ (postA.map DEv.tick) = ⟨q2, t2, true, []⟩ := by
    refine dticks_no_fire postA _ ?_
    intro t ht
    have := hpostA t ht
    simp only []
    omega
  have h3 : dstep ⟨q2, t2, true, []⟩ (DEv.tick t') =
      ⟨q2, t2, false, [(t', q2)]⟩ := by
    have := dtick_fires t' ⟨q2, t2, true, []⟩ rfl (by simpa using ht')
    simpa using this
  have h4 : drun ⟨q2, t2, false, [(t', q2)]⟩ (postB.map DEv.tick) =
      ⟨q2, t2, false, [(t', q2)]⟩ := dticks_idle postB _ rfl
  have hm1 : dstep dinit (DEv.mut t1 q1) = ⟨q1, t1, true, []⟩ := rfl
  have hm2 : dstep ⟨q1, t1, true, []⟩ (DEv.mut t2 q2) = ⟨q2, t2, true, []⟩ := rfl
  simp only [drun] at h0 h1 h2 h4 ⊢
  rw [List.foldl_append, List.foldl_cons, List.foldl_append, List.foldl_cons,
    List.foldl_append, List.foldl_cons, h0, hm1, h1, hm2, h2, h3, h4]

/-- C3 witness: mutations at 0 ms ("a") and 200 ms ("ab") with polls at 150,
400, 600 and 700 ms — the single executed cycle is at 600 ms with query "ab". -/
theorem c3_debounce_single_search_witness :
    (drun dinit
      (([] : List Nat).map DEv.tick ++ DEv.mut 0 "a" :: [150].map DEv.tick ++
        DEv.mut 200 "ab" :: [400].map DEv.tick ++ DEv.tick 600 ::
        [700].map DEv.tick)).executed = [(600, "ab")] :=
  c3_debounce_single_search 0 200 "a" "ab" [] [150] [400] [700] 600
    (by decide) (by decide) (by decide) (by decide)

/-
Embedding of ConversationViewer's navigation state and operations
(conversation_viewer.py).  current_line, total_lines, viewport_height and
search_index are Python ints; search_results is the list of matching line
numbers.
-/

/-- The ViewerState fields that the scrolling and search-navigation operations
read and write (conversation_viewer.py lines 27-44). -/
structure ViewerState where
  current_line : Int
  total_lines : Int
  viewport_height : Int
  search_query : String
  search_results : List Int
  search_index : Int
deriving Repr, DecidableEq

/-- `max(0, total_lines - viewport_height)`, the maximal scroll offset used by
scroll_down and go_to_bottom. -/
def max_scroll (vs : ViewerState) : Int :=
  max 0 (vs.total_lines - vs.viewport_height)

/-- ConversationViewer.scroll_up (lines 419-421); the `lines` argument
defaults to 1 in the source. -/
def scroll_up (lines : Int) (vs : ViewerState) : ViewerState :=
  { vs with current_line := max 0 (vs.current_line - lines) }

/-- ConversationViewer.scroll_down (lines 423-426). -/
def scroll_down (lines : Int) (vs : ViewerState) : ViewerState :=
  { vs with current_line := min (max_scroll vs) (vs.current_line + lines) }

/-- ConversationViewer.page_up (lines 428-430): scroll_up by
viewport_height - 1. -/
def page_up (vs : ViewerState) : ViewerState :=
  scroll_up (vs.viewport_height - 1) vs

/-- ConversationViewer.page_down (lines 432-434). -/
def page_down (vs : ViewerState) : ViewerState :=
  scroll_down (vs.viewport_height - 1) vs

/-- ConversationViewer.go_to_top (lines 436-438). -/
def go_to_top (vs : ViewerState) : ViewerState :=
  { vs with current_line := 0 }

/-- ConversationViewer.go_to_bottom (lines 440-443). -/
def go_to_bottom (vs : ViewerState) : ViewerState :=
  { vs with current_line := max_scroll vs }

/-- A viewer state whose current_line 2 lies above the scroll range: the
conversation has 1 formatted line and the viewport shows 20, so
max_scroll = 0. -/
def c9_vs : ViewerState := ⟨2, 1, 20, "", [], 0⟩

/-- C9 counterexample: scroll_up from a starting current_line outside
[0, max_scroll] does not clamp back into the interval — from current_line 2
with max_scroll 0 it lands on 1, still outside. -/
theorem c9_scroll_up_out_of_range_cex :
    (scroll_up 1 c9_vs).current_line = 1 ∧
    ¬ ((scroll_up 1 c9_vs).current_line ≤ max_scroll (scroll_up 1 c9_vs)) := by
  decide

/-- C9 (amended): whenever current_line already lies in
[0, max(0, total_lines - viewport_height)] (and the viewport has at least one
row, as every terminal fallback in the source guarantees), each of the six
scrolling operations leaves current_line in that interval; go_to_top and
go_to_bottom re-establish it from any starting value.  A start outside the
interval is not repaired by scroll_up/scroll_down/page_up/page_down. -/
theorem c9_scrolling_preserves_range (vs : ViewerState)
    (h0 : 0 ≤ vs.current_line) (h1 : vs.current_line ≤ max_scroll vs)
    (hv : 1 ≤ vs.viewport_height) :
    (0 ≤ (scroll_up 1 vs).current_line ∧
      (scroll_up 1 vs).current_line ≤ max_scroll vs) ∧
    (0 ≤ (scroll_down 1 vs).current_line ∧
      (scroll_down 1 vs).current_line ≤ max_scroll vs) ∧
    (0 ≤ (page_up vs).current_line ∧
      (page_up vs).current_line ≤ max_scroll vs) ∧
    (0 ≤ (page_down vs).current_line ∧
      (page_down vs).current_line ≤ max_scroll vs) ∧
    (0 ≤ (go_to_top vs).current_line ∧
      (go_to_top vs).current_line ≤ max_scroll vs) ∧
    (0 ≤ (go_to_bottom vs).current_line ∧
      (go_to_bottom vs).current_line ≤ max_scroll vs) := by
  have hms : 0 ≤ max_scroll vs := le_max_left 0 _
  unfold scroll_up scroll_down page_up page_down go_to_top go_to_bottom
    scroll_up scroll_down
  refine ⟨⟨le_max_left 0 _, ?_⟩, ⟨?_, min_le_left _ _⟩,
    ⟨le_max_left 0 _, ?_⟩, ⟨?_, min_le_left _ _⟩,
    ⟨le_refl 0, hms⟩, ⟨hms, le_refl _⟩⟩
  · exact max_le hms (by omega)
  · exact le_min hms (by omega)
  · exact max_le hms (by omega)
  · exact le_min hms (by omega)

/-- A viewer state inside the scroll range: 100 total lines, 20 visible,
current_line 50. -/
def c9_in_vs : ViewerState := ⟨50, 100, 20, "", [], 0⟩

/-- C9 witness: all six scrolling operations keep the concrete in-range state
c9_in_vs inside [0, max_scroll]. -/
theorem c9_scrolling_preserves_range_witness :
    (0 ≤ (scroll_up 1 c9_in_vs).current_line ∧
      (scroll_up 1 c9_in_vs).current_line ≤ max_scroll c9_in_vs) ∧
    (0 ≤ (scroll_down 1 c9_in_vs).current_line ∧
      (scroll_down 1 c9_in_vs).current_line ≤ max_scroll c9_in_vs) ∧
    (0 ≤ (page_up c9_in_vs).current_line ∧
      (page_up c9_in_vs).current_line ≤ max_scroll c9_in_vs) ∧
    (0 ≤ (page_down c9_in_vs).current_line ∧
      (page_down c9_in_vs).current_line ≤ max_scroll c9_in_vs) ∧
    (0 ≤ (go_to_top c9_in_vs).current_line ∧
      (go_to_top c9_in_vs).current_line ≤ max_scroll c9_in_vs) ∧
    (0 ≤ (go_to_bottom c9_in_vs).current_line ∧
      (go_to_bottom c9_in_vs).current_line ≤ max_scroll c9_in_vs) :=
  c9_scrolling_preserves_range c9_in_vs (by decide) (by decide) (by decide)

/-- ConversationViewer.next_search_result (conversation_viewer.py lines
469-477): advance search_index cyclically (Python `%` on a positive modulus is
the Euclidean remainder, as Int.emod is) and jump current_line to that result.
The new index is provably in range, so the safe lookup getD coincides with
Python's `search_results[search_index]`. -/
def next_search_result (vs : ViewerState) : ViewerState :=
  if vs.search_results.isEmpty then vs
  else
    let n : Int := vs.search_results.length
    let i := (vs.search_index + 1) % n
    { vs with search_index := i, current_line := vs.search_results.getD i.toNat 0 }

/-- ConversationViewer.prev_search_result (lines 479-487). -/
def prev_search_result (vs : ViewerState) : ViewerState :=
  if vs.search_results.isEmpty then vs
  else
    let n : Int := vs.search_results.length
    let i := (vs.search_index - 1) % n
    { vs with search_index := i, current_line := vs.search_results.getD i.toNat 0 }

/-- ConversationViewer.search (lines 445-467), with the matching line numbers
(computed from the formatted lines by the out-of-scope rendering layer)
passed in as `found`. -/
def search_op (q : String) (found : List Int) (vs : ViewerState) : ViewerState :=
  if q = "" then
    { vs with search_query := "", search_results := [], search_index := 0 }
  else
    let vs1 := { vs with search_query := q, search_results := found }
    if found.isEmpty then vs1
    else { vs1 with search_index := 0, current_line := found.getD 0 0 }

/-- The ConversationViewer class invariant: whenever search_results is
non-empty, search_index is a valid index into it. -/
def viewer_wf (vs : ViewerState) : Prop :=
  vs.search_results ≠ [] →
    0 ≤ vs.search_index ∧ vs.search_index < (vs.search_results.length : Int)

/-- Subtracting 1 commutes with an outer Euclidean remainder. -/
theorem emod_sub_one (a n : Int) : (a % n - 1) % n = (a - 1) % n := by
  conv_rhs => rw [Int.sub_emod]
  rw [Int.sub_emod (a % n) 1 n, Int.emod_emod_of_dvd a dvd_rfl]

/-- Adding 1 commutes with an outer Euclidean remainder. -/
theorem emod_add_one (a n : Int) : (a % n + 1) % n = (a + 1) % n := by
  conv_rhs => rw [Int.add_emod]
  rw [Int.add_emod (a % n) 1 n, Int.emod_emod_of_dvd a dvd_rfl]

/-- search establishes the viewer invariant, for every query and match list. -/
theorem search_op_wf (q : String) (found : List Int) (vs : ViewerState) :
    viewer_wf (search_op q found vs) := by
  unfold search_op viewer_wf
  by_cases hq : q = ""
  · simp [hq]
  · simp only [hq, if_false]
    by_cases hm : found.isEmpty
    · intro h
      simp only [hm, if_true] at h
      simp only [List.isEmpty_iff] at hm
      exact absurd hm h
    · intro h
      simp only [hm, if_false]
      constructor
      · simp [hm]
      · simp only [hm, Bool.false_eq_true, if_false]
        have : found ≠ [] := by simpa [List.isEmpty_iff] using hm
        have : 0 < found.length := List.length_pos.mpr this
        exact_mod_cast this

/-- next_search_result preserves the viewer invariant. -/
theorem next_search_result_wf (vs : ViewerState) :
    viewer_wf (next_search_result vs) := by
  unfold next_search_result viewer_wf
  by_cases he : vs.search_results.isEmpty
  · simp only [he, if_true]
    intro h
    exact absurd (by simpa [List.isEmpty_iff] using he) h
  · simp only [he, if_false]
    intro _
    have hne : vs.search_results ≠ [] := by simpa [List.isEmpty_iff] using he
    have hn : (0 : Int) < vs.search_results.length := by
      exact_mod_cast List.length_pos.mpr hne
    exact ⟨Int.emod_nonneg _ (ne_of_gt hn), Int.emod_lt_of_pos _ hn⟩

/-- prev_search_result preserves the viewer invariant. -/
theorem prev_search_result_wf (vs : ViewerState) :
    viewer_wf (prev_search_result vs) := by
  unfold prev_search_result viewer_wf
  by_cases he : vs.search_results.isEmpty
  · simp only [he, if_true]
    intro h
    exact absurd (by simpa [List.isEmpty_iff] using he) h
  · simp only [he, if_false]
    intro _
    have hne : vs.search_results ≠ [] := by simpa [List.isEmpty_iff] using he
    have hn : (0 : Int) < vs.search_results.length := by
      exact_mod_cast List.length_pos.mpr hne
    exact ⟨Int.emod_nonneg _ (ne_of_gt hn), Int.emod_lt_of_pos _ hn⟩

/-- C10: for every viewer state satisfying the class invariant (established by
search and preserved by every operation, per the wf lemmas above): when
search_results is non-empty, prev_search_result undoes next_search_result on
search_index and vice versa, both operations keep search_index inside
[0, search_results.length - 1] and set current_line to the result line at the
new search_index; when search_results is empty both operations leave the state
unchanged. -/
theorem c10_search_nav_roundtrip (vs : ViewerState) (hwf : viewer_wf vs) :
    (vs.search_results ≠ [] →
      (prev_search_result (next_search_result vs)).search_index
          = vs.search_index ∧
      (next_search_result (prev_search_result vs)).search_index
          = vs.search_index ∧
      (0 ≤ (next_search_result vs).search_index ∧
        (next_search_result vs).search_index
          < (vs.search_results.length : Int)) ∧
      (0 ≤ (prev_search_result vs).search_index ∧
        (prev_search_result vs).search_index
          < (vs.search_results.length : Int)) ∧
      (next_search_result vs).current_line
        = vs.search_results.getD (next_search_result vs).search_index.toNat 0 ∧
      (prev_search_result vs).current_line
        = vs.search_results.getD (prev_search_result vs).search_index.toNat 0) ∧
    (vs.search_results = [] →
      next_search_result vs = vs ∧ prev_search_result vs = vs) := by
  constructor
  · intro hne
    have he : vs.search_results.isEmpty = false := by
      simpa [List.isEmpty_iff] using hne
    have hn : (0 : Int) < vs.search_results.length := by
      exact_mod_cast List.length_pos.mpr hne
    obtain ⟨hi0, hilt⟩ := hwf hne
    set n : Int := (vs.search_results.length : Int) with hndef
    set i : Int := vs.search_index with hidef
    have hround1 : ((i + 1) % n - 1) % n = i := by
      rw [emod_sub_one, add_sub_cancel_right, Int.emod_eq_of_lt hi0 hilt]
    have hround2 : ((i - 1) % n + 1) % n = i := by
      rw [emod_add_one, sub_add_cancel, Int.emod_eq_of_lt hi0 hilt]
    refine ⟨?_, ?_, ?_, ?_, ?_, ?_⟩
    · simp only [next_search_result, prev_search_result, he, Bool.false_eq_true,
        if_false]
      exact hround1
    · simp only [next_search_result, prev_search_result, he, Bool.false_eq_true,
        if_false]
      exact hround2
    · simp only [next_search_result, he, Bool.false_eq_true, if_false]
      exact ⟨Int.emod_nonneg _ (ne_of_gt hn), Int.emod_lt_of_pos _ hn⟩
    · simp only [prev_search_result, he, Bool.false_eq_true, if_false]
      exact ⟨Int.emod_nonneg _ (ne_of_gt hn), Int.emod_lt_of_pos _ hn⟩
    · simp only [next_search_result, he, Bool.false_eq_true, if_false]
    · simp only [prev_search_result, he, Bool.false_eq_true, if_false]
  · intro hnil
    have he : vs.search_results.isEmpty = true := by simp [hnil]
    constructor <;> simp [next_search_result, prev_search_result, he]

/-- A viewer state with two search results, positioned on the second. -/
def c10_vs : ViewerState := ⟨7, 40, 20, "hi", [3, 7], 1⟩

/-- C10 witness: the roundtrip and bounds at the concrete two-result state. -/
theorem c10_search_nav_roundtrip_witness :
    (prev_search_result (next_search_result c10_vs)).search_index = 1 ∧
    (next_search_result (prev_search_result c10_vs)).search_index = 1 ∧
    (next_search_result c10_vs).current_line = 3 := by
  have h := (c10_search_nav_roundtrip c10_vs (by intro _; exact ⟨by decide, by decide⟩)).1
    (by decide)
  refine ⟨?_, ?_, ?_⟩
  · rw [h.1]
    rfl
  · rw [h.2.1]
    rfl
  · rw [h.2.2.2.2.1]
    decide

/-
Embedding of ConversationViewer.load_conversation (conversation_viewer.py
lines 129-147).  One line of the JSONL file, after line.strip(), is one of:
  * decodeError — json.loads raises json.JSONDecodeError (includes blank lines);
  * nonObject — json.loads succeeds but yields a non-dict value (a JSON array,
    string, number, bool or null), so `entry.get("type")` raises AttributeError;
  * obj t p — a dict whose "type" field holds the string `t` (none when the
    field is absent or not a string), with payload `p` standing for the rest of
    the dict.
-/

/-- One parsed line of a transcript file, as load_conversation can observe it. -/
inductive JsonLine (μ : Type) where
  | decodeError : JsonLine μ
  | nonObject : JsonLine μ
  | obj : Option String → μ → JsonLine μ
deriving Repr, DecidableEq

/-- The line loop of load_conversation with the entries accumulated so far:
a JSONDecodeError is caught by the inner `except json.JSONDecodeError` and the
loop continues; the AttributeError raised by `entry.get` on a non-dict is NOT
caught there — it propagates to the outer `except Exception`, which ends the
load, keeping the entries appended before the bad line; a dict is appended to
the conversation iff its "type" is "user" or "assistant". -/
def load_lines {μ : Type} (acc : List (Option String × μ)) :
    List (JsonLine μ) → List (Option String × μ)
  | [] => acc
  | .decodeError :: rest => load_lines acc rest
  | .nonObject :: _ => acc
  | .obj t p :: rest =>
      if t = some "user" ∨ t = some "assistant" then
        load_lines (acc ++ [(t, p)]) rest
      else load_lines acc rest

/-- ConversationViewer.load_conversation on the parsed lines of one readable
file: the conversation it leaves in self.state.conversation. -/
def load_conversation {μ : Type} (ls : List (JsonLine μ)) :
    List (Option String × μ) :=
  load_lines [] ls

/-- C7: evaluation of load_conversation at the failing input.  A JSON-decode
failure is indeed skipped individually (second conjunct), but a line holding
valid non-object JSON — here `[1, 2]` as the first line — aborts the read of
the rest of the file, so the well-formed user message on the following line is
not loaded, although it is present in the input (first and third conjuncts). -/
theorem c7_nonobject_line_aborts_load :
    load_conversation [JsonLine.nonObject, JsonLine.obj (some "user") (0 : Nat)]
      = [] ∧
    load_conversation
        [JsonLine.decodeError, JsonLine.obj (some "user") (0 : Nat)]
      = [(some "user", 0)] ∧
    JsonLine.obj (some "user") (0 : Nat) ∈
      [JsonLine.nonObject, JsonLine.obj (some "user") (0 : Nat)] := by decide

end CCE
